import Mathlib

/-!
Verification development for the LinkedIn-MCP identity-and-session core.

The definitions below are a shallow embedding of the Python source:
  - src/tools/messaging.py   (identity resolver: _looks_like_urn_id,
    _resolve_via_conversations, _resolve_recipient, handle_send_message)
  - src/linkedin_client.py   (session manager: _is_session_valid, get_client)
  - src/tools/profile.py     (own-identity extractor: _is_me_error,
    _extract_own_public_id, _extract_own_urn_id, _get_own_urn_id)

Upstream API calls are modelled by scripted oracles; every call either
returns a JSON-like value or raises (CallResult.exn), and the embedded
functions additionally return the list of upstream calls they issued, so
that call counts are first-class.
-/

namespace LinkedInCore

/-- JSON-like values as delivered by the upstream client (Python dict / list /
str / int / bool / None). Dicts are association lists with first-match lookup. -/
inductive JVal where
  | null
  | bool (b : Bool)
  | num (n : Int)
  | str (s : String)
  | arr (elems : List JVal)
  | obj (fields : List (String × JVal))
deriving Repr

/-- Python truthiness of a value. -/
def truthy : JVal → Bool
  | .null => false
  | .bool b => b
  | .num n => n != 0
  | .str s => s != ""
  | .arr l => !l.isEmpty
  | .obj l => !l.isEmpty

/-- Python dict.get(k) on an object; none when the key is missing or the value
is not a dict (call sites that would raise instead are modelled separately). -/
def JVal.get? (v : JVal) (k : String) : Option JVal :=
  match v with
  | .obj fs => fs.lookup k
  | _ => none

/-- Python dict.get(k, d). -/
def JVal.getD (v : JVal) (k : String) (d : JVal) : JVal :=
  (v.get? k).getD d

/-- Whether a dict has the key (Python "k in me"). -/
def JVal.hasKey (v : JVal) (k : String) : Bool :=
  (v.get? k).isSome

/-- Value of field k when present and truthy (the Python idiom
"if d.get(k): return d[k]"). -/
def truthyField (v : JVal) (k : String) : Option JVal :=
  match v.get? k with
  | some x => if truthy x then some x else none
  | none => none

/-- Python str(v) as used in f-string interpolation and str(); container
renderings are abbreviated (no claim evaluates them). -/
def pyRender : JVal → String
  | .null => "None"
  | .bool true => "True"
  | .bool false => "False"
  | .num n => toString n
  | .str s => s
  | .arr _ => "[...]"
  | .obj _ => "<dict>"

/-- Membership of a character in a string (Python "c in s" for a one-char
pattern), over the character list so that it evaluates by rfl. -/
def pyContains (s : String) (c : Char) : Bool :=
  s.data.contains c

/-- Python s.strip(): drop leading and trailing whitespace. -/
def pyTrim (s : String) : String :=
  ⟨((s.data.dropWhile Char.isWhitespace).reverse.dropWhile Char.isWhitespace).reverse⟩

/-- Python s.lower() (ASCII case folding, which covers every claim input). -/
def pyLower (s : String) : String :=
  ⟨s.data.map Char.toLower⟩

/-- Splitting a character list at every character satisfying p, keeping empty
pieces (the behaviour of Python str.split with an explicit separator). -/
def splitBy (p : Char → Bool) : List Char → List Char → List (List Char)
  | [], acc => [acc.reverse]
  | c :: rest, acc =>
    if p c then acc.reverse :: splitBy p rest []
    else splitBy p rest (c :: acc)

/-- Python s.split(sep)[-1] for sep = colon; the split list is never empty so
the default is never used. -/
def splitColonLast (s : String) : String :=
  ⟨(splitBy (fun c => c == ':') s.data []).getLastD []⟩

/-- Python s.split() with no argument: split on whitespace runs, dropping
empty pieces. -/
def pySplitWs (s : String) : List String :=
  ((splitBy Char.isWhitespace s.data []).filter (fun l => !l.isEmpty)).map (fun l => ⟨l⟩)

/-- Python sep.join(parts). -/
def joinWith (sep : String) : List String → String
  | [] => ""
  | [x] => x
  | x :: y :: rest => x ++ sep ++ joinWith sep (y :: rest)

/-- Result of one upstream call: a value, or a raised exception. -/
inductive CallResult (α : Type) where
  | ok (v : α)
  | exn (msg : String)
deriving Repr, BEq, DecidableEq

/-! ## Identity resolver (src/tools/messaging.py) -/

/-- Embeds _looks_like_urn_id: truthy, and contains no space and no comma. -/
def looks_like_urn_id (value : String) : Bool :=
  value != "" && !pyContains value ' ' && !pyContains value ','

/-- Keyword arguments of an api.search_people call. -/
structure SearchArgs where
  keywords : Option String
  keyword_first_name : Option String
  keyword_last_name : Option String
  include_private_profiles : Bool
  network_depths : Option (List String)
  limit : Nat
deriving Repr, BEq, DecidableEq

/-- Arguments of strategy 1: api.search_people(keywords=recipient, limit=5). -/
def strategy1Args (recipient : String) : SearchArgs :=
  ⟨some recipient, none, none, false, none, 5⟩

/-- Arguments of strategy 2: first/last-name search across all network depths
including private profiles. -/
def strategy2Args (first_name last_name : String) : SearchArgs :=
  ⟨none, some first_name, some last_name, true, some ["F", "S", "O"], 5⟩

/-- Arguments of strategy 3: broad keyword search across all network depths
including private profiles. -/
def strategy3Args (recipient : String) : SearchArgs :=
  ⟨some recipient, none, none, true, some ["F", "S", "O"], 5⟩

/-- One upstream call issued by the resolver, for call counting. -/
inductive ApiCall where
  | search_people (args : SearchArgs)
  | get_conversations
deriving Repr, BEq, DecidableEq

/-- The upstream client as seen by the resolver: scripted responses for
search_people (keyed on the exact arguments) and get_conversations. -/
structure Api where
  search_people : SearchArgs → CallResult (List JVal)
  get_conversations : CallResult JVal

/-- Shared tail of strategies 1 to 3: "if results: urn_id = results[0].get(
urn_id field); if urn_id: return urn_id". Some v exactly when the result list
is non-empty and the top candidate carries a truthy urn_id. -/
def topUrnId (results : List JVal) : Option JVal :=
  match results with
  | [] => none
  | c :: _ =>
    match c.get? "urn_id" with
    | some v => if truthy v then some v else none
    | none => none

/-- Inner participant loop of _resolve_via_conversations, in an exception
monad: dynamic-type errors (.error) abort the scan and are caught by the
surrounding try. -/
def scanParticipants (name_lower : String) : List JVal → Except String (Option String)
  | [] => .ok none
  | p :: rest =>
    match p with
    | .obj _ =>
      let member := p.getD "com.linkedin.voyager.messaging.MessagingMember" (.obj [])
      match member with
      | .obj _ =>
        let mini := member.getD "miniProfile" (.obj [])
        match mini with
        | .obj _ =>
          let first := mini.getD "firstName" (.str "")
          let last := mini.getD "lastName" (.str "")
          let full_name := pyLower (pyTrim (pyRender first ++ " " ++ pyRender last))
          if name_lower == full_name then
            let urn := mini.getD "entityUrn" (.str "")
            if truthy urn then
              match urn with
              | .str s =>
                if pyContains s ':' then .ok (some (splitColonLast s))
                else scanParticipants name_lower rest
              | _ => .error "TypeError"
            else scanParticipants name_lower rest
          else scanParticipants name_lower rest
        | _ => .error "AttributeError"
      | _ => .error "AttributeError"
    | _ => .error "AttributeError"

/-- Iterating a value with a Python for loop; only lists are iterable in this
model (iterating anything else raises). -/
def asIterList (v : JVal) : Except String (List JVal) :=
  match v with
  | .arr l => .ok l
  | _ => .error "TypeError"

/-- Outer conversation loop of _resolve_via_conversations. -/
def scanConvs (name_lower : String) : List JVal → Except String (Option String)
  | [] => .ok none
  | conv :: rest =>
    match conv with
    | .obj _ =>
      match asIterList (conv.getD "participants" (.arr [])) with
      | .error m => .error m
      | .ok parts =>
        match scanParticipants name_lower parts with
        | .error m => .error m
        | .ok (some r) => .ok (some r)
        | .ok none => scanConvs name_lower rest
    | _ => .error "AttributeError"

/-- Embeds _resolve_via_conversations: one get_conversations call; the whole
body sits in a try/except, so any raise (including a transport failure)
yields none rather than propagating. -/
def resolve_via_conversations (api : Api) (name : String) : Option String :=
  let scanned : Except String (Option String) :=
    match api.get_conversations with
    | .exn m => .error m
    | .ok raw =>
      match raw with
      | .obj _ =>
        match asIterList (raw.getD "elements" (.arr [])) with
        | .error m => .error m
        | .ok conv_list => scanConvs (pyLower name) conv_list
      | .arr l => scanConvs (pyLower name) l
      | _ => scanConvs (pyLower name) []
  match scanned with
  | .ok r => r
  | .error _ => none

/-- Embeds _resolve_recipient, returning the outcome (value, none, or a
propagating exception) together with the list of upstream calls issued. -/
def resolve_recipient (api : Api) (recipient : String) : CallResult (Option JVal) × List ApiCall :=
  if looks_like_urn_id recipient then (.ok (some (.str recipient)), [])
  else
    let a1 := strategy1Args recipient
    match api.search_people a1 with
    | .exn m => (.exn m, [.search_people a1])
    | .ok results1 =>
      match topUrnId results1 with
      | some v => (.ok (some v), [.search_people a1])
      | none =>
        let parts := pySplitWs (pyTrim recipient)
        let afterS2 : CallResult (Option JVal) × List ApiCall :=
          match parts with
          | p0 :: p1 :: prest =>
            let a2 := strategy2Args p0 (joinWith " " (p1 :: prest))
            (match api.search_people a2 with
             | .exn m => (.exn m, [.search_people a1, .search_people a2])
             | .ok results2 =>
               match topUrnId results2 with
               | some v => (.ok (some v), [.search_people a1, .search_people a2])
               | none => (.ok none, [.search_people a1, .search_people a2]))
          | _ => (.ok none, [.search_people a1])
        match afterS2 with
        | (.exn m, log) => (.exn m, log)
        | (.ok (some v), log) => (.ok (some v), log)
        | (.ok none, log) =>
          let a3 := strategy3Args recipient
          match api.search_people a3 with
          | .exn m => (.exn m, log ++ [.search_people a3])
          | .ok results3 =>
            match topUrnId results3 with
            | some v => (.ok (some v), log ++ [.search_people a3])
            | none =>
              let log4 := log ++ [.search_people a3, .get_conversations]
              match resolve_via_conversations api recipient with
              | some urn_id => (.ok (some (.str urn_id)), log4)
              | none => (.ok none, log4)

/-! ## Tool boundary for messaging (handle_send_message in src/tools/messaging.py) -/

/-- The structured tool response (src/response.py): success_response /
error_response shapes, with the resolvedRecipients payload kept. -/
structure Response where
  success : Bool
  error : String
  errorCode : String
  resolvedRecipients : Option (List JVal)
deriving Repr

/-- Embeds success_response (the sent flag is implicit in success = true). -/
def success_response (resolved : Option (List JVal)) : Response :=
  ⟨true, "", "", resolved⟩

/-- Embeds error_response. -/
def error_response (err : String) (error_code : String) : Response :=
  ⟨false, err, error_code, none⟩

/-- The upstream client as seen by handle_send_message: session acquisition
(get_client) and send_message may both raise; the rest is the resolver api. -/
structure SendApi where
  acquire : CallResult Unit
  search_people : SearchArgs → CallResult (List JVal)
  get_conversations : CallResult JVal
  send_message : CallResult Bool

/-- The resolver view of a SendApi. -/
def SendApi.toApi (api : SendApi) : Api :=
  ⟨api.search_people, api.get_conversations⟩

/-- Python truthiness of an optional string argument. -/
def optTruthyStr : Option String → Bool
  | none => false
  | some s => s != ""

/-- Python truthiness of an optional list argument. -/
def optTruthyList : Option (List String) → Bool
  | none => false
  | some l => !l.isEmpty

/-- Resolution loop of handle_send_message over the recipients list: stops at
the first propagating exception (.exn), or at the first recipient resolving to
none (.ok (.error r), surfaced as RECIPIENT_NOT_FOUND for r), else collects
the resolved ids in order. -/
def resolveAll (api : Api) : List String → CallResult (Except String (List JVal))
  | [] => .ok (.ok [])
  | r :: rest =>
    match (resolve_recipient api r).1 with
    | .exn m => .exn m
    | .ok none => .ok (.error r)
    | .ok (some v) =>
      match resolveAll api rest with
      | .exn m => .exn m
      | .ok (.error r2) => .ok (.error r2)
      | .ok (.ok vs) => .ok (.ok (v :: vs))

/-- Tail of handle_send_message: the send_message call and the mapping of its
boolean error convention (true = non-201 status) to a structured response. -/
def finishSend (api : SendApi) (resolved : Option (List JVal)) : Response :=
  match api.send_message with
  | .exn m => error_response m "LINKEDIN_ERROR"
  | .ok true =>
    error_response
      "LinkedIn rejected the message (API returned non-201 status). The account may be restricted or rate-limited."
      "LINKEDIN_SEND_FAILED"
  | .ok false => success_response resolved

/-- Embeds handle_send_message: input validation, then a try block in which
session acquisition, recipient resolution and the send call run; every raise
inside the try is caught and returned as error_response(msg, LINKEDIN_ERROR). -/
def handle_send_message (api : SendApi) (message_body : String)
    (conversation_urn_id : Option String) (recipients : Option (List String)) : Response :=
  if pyTrim message_body == "" then
    error_response "message_body cannot be empty" "VALIDATION_ERROR"
  else if !optTruthyStr conversation_urn_id && !optTruthyList recipients then
    error_response "Provide either conversation_urn_id or recipients" "VALIDATION_ERROR"
  else
    match api.acquire with
    | .exn m => error_response m "LINKEDIN_ERROR"
    | .ok _ =>
      if optTruthyList recipients then
        match resolveAll api.toApi (recipients.getD []) with
        | .exn m => error_response m "LINKEDIN_ERROR"
        | .ok (.error r) =>
          error_response ("Could not find LinkedIn user matching " ++ r) "RECIPIENT_NOT_FOUND"
        | .ok (.ok urns) => finishSend api (some urns)
      else finishSend api none

/-! ## Session manager (src/linkedin_client.py) -/

/-- Embeds _is_session_valid: false on a raised probe; false when the probe
response is a dict carrying a status key and no miniProfile key; true
otherwise. -/
def is_session_valid (r : CallResult JVal) : Bool :=
  match r with
  | .exn _ => false
  | .ok me =>
    match me with
    | .obj _ => !(me.hasKey "status" && !me.hasKey "miniProfile")
    | _ => true

/-- Configuration and scripted upstream behaviour seen by get_client. The env
strings are the raw environment values (get_client strips them); probe n is
the raw response of the n-th health probe (/me call) issued during the call. -/
structure SessionEnv where
  li_at : String
  jsessionid : String
  email : String
  password : String
  cookie_file_exists : Bool
  probe : Nat → CallResult JVal

/-- Which session object get_client ended up returning. -/
inductive Sess where
  | cookie_session
  | password_session (build : Nat)
deriving Repr, DecidableEq

/-- The two RuntimeError raises of get_client, told apart by their message. -/
inductive AcquireError where
  | cookies_expired_no_fallback
  | no_credentials
deriving Repr, DecidableEq

/-- Result of get_client: a returned session, or a raised RuntimeError. -/
inductive AcquireResult where
  | session (s : Sess)
  | raised (e : AcquireError)
deriving Repr, DecidableEq

/-- Observable outcome of one get_client call: the result, the number of
health probes issued, the number of password logins performed, the number of
cached-cookie-file deletions, and the validity of the last probe run against
the returned session (none when the call raised). -/
structure AcquireTrace where
  result : AcquireResult
  probes : Nat
  logins : Nat
  deletions : Nat
  last_probe_valid : Option Bool
deriving Repr, DecidableEq

/-- Embeds get_client on a fresh singleton (client cache empty): cookie mode
first when both cookie env values are non-empty after stripping, then the
config check, then the password flow with its single delete-and-retry repair. -/
def get_client (env : SessionEnv) : AcquireTrace :=
  let li_at := pyTrim env.li_at
  let jsessionid := pyTrim env.jsessionid
  let email := pyTrim env.email
  let password := pyTrim env.password
  let cookieMode := li_at != "" && jsessionid != ""
  if cookieMode && is_session_valid (env.probe 0) then
    ⟨.session .cookie_session, 1, 0, 0, some true⟩
  else
    let base := if cookieMode then 1 else 0
    if email == "" || password == "" then
      if li_at != "" then ⟨.raised .cookies_expired_no_fallback, base, 0, 0, none⟩
      else ⟨.raised .no_credentials, base, 0, 0, none⟩
    else
      if is_session_valid (env.probe base) then
        ⟨.session (.password_session 1), base + 1, 1, 0, some true⟩
      else if env.cookie_file_exists then
        ⟨.session (.password_session 2), base + 2, 2, 1,
          some (is_session_valid (env.probe (base + 1)))⟩
      else
        ⟨.session (.password_session 1), base + 1, 1, 0, some false⟩

/-! ## Own-identity extractor (src/tools/profile.py) -/

/-- Embeds _is_me_error: the response is an error shape when it has a status
key but neither miniProfile nor publicIdentifier. -/
def is_me_error (me : JVal) : Bool :=
  me.hasKey "status" && !me.hasKey "miniProfile" && !me.hasKey "publicIdentifier"

/-- Embeds _extract_own_public_id: nested miniProfile.publicIdentifier first,
then the flat legacy names publicIdentifier, vanityName, public_id, each
accepted only when truthy. -/
def extract_own_public_id (me : JVal) : Option JVal :=
  let mini := me.getD "miniProfile" (.obj [])
  let fromMini :=
    match mini with
    | .obj _ => truthyField mini "publicIdentifier"
    | _ => none
  fromMini <|> truthyField me "publicIdentifier" <|> truthyField me "vanityName" <|>
    truthyField me "public_id"

/-- The idiom "urn = d.get(k, empty); if urn and colon in urn: return final
colon-delimited segment". String-typed urn fields only: a truthy non-string
here would raise upstream and no claim exercises that. -/
def colonUrnField (v : JVal) (k : String) : Option JVal :=
  match v.getD k (.str "") with
  | .str s => if s != "" && pyContains s ':' then some (.str (splitColonLast s)) else none
  | _ => none

/-- Embeds _extract_own_urn_id: miniProfile.entityUrn, then flat entityUrn,
then objectUrn (each via the colon-segment decomposition), then str(plainId)
when plainId is truthy. -/
def extract_own_urn_id (me : JVal) : Option JVal :=
  let mini := me.getD "miniProfile" (.obj [])
  let fromMini :=
    match mini with
    | .obj _ => colonUrnField mini "entityUrn"
    | _ => none
  fromMini <|> colonUrnField me "entityUrn" <|> colonUrnField me "objectUrn" <|>
    (match truthyField me "plainId" with
     | some v => some (.str (pyRender v))
     | none => none)

/-- The upstream client as seen by the own-identity extractor: the health
probe get_user_profile (argument: use_cache) and get_profile by handle. -/
structure ProfileApi where
  get_user_profile : Bool → CallResult JVal
  get_profile : String → CallResult JVal

/-- One upstream call issued by the extractor, for call counting. -/
inductive ProfileCall where
  | get_user_profile (use_cache : Bool)
  | get_profile (public_id : String)
deriving Repr, DecidableEq

/-- Override fallback of _get_own_urn_id: one get_profile(public_id) lookup
inside a try; returns profile_id if truthy, else the final colon segment of
member_urn if non-empty, else none; any raise is caught and yields none. -/
def urnViaProfileLookup (api : ProfileApi) (pid : String) : Option JVal :=
  match api.get_profile pid with
  | .exn _ => none
  | .ok profile =>
    match profile with
    | .obj _ =>
      match truthyField profile "profile_id" with
      | some v => some v
      | none =>
        match profile.getD "member_urn" (.str "") with
        | .str s =>
          let t := splitColonLast s
          if t != "" then some (.str t) else none
        | _ => none
    | _ => none

/-- Embeds _get_own_urn_id, returning the outcome together with the upstream
calls issued. The probe is not try-wrapped, so a raised probe propagates; the
cache-evicting retry runs once when the first probe classifies as an error
shape; the env override LINKEDIN_PUBLIC_ID drives the profile-lookup
fallback. -/
def get_own_urn_id (api : ProfileApi) (env_public_id : Option String) :
    CallResult (Option JVal) × List ProfileCall :=
  match api.get_user_profile true with
  | .exn m => (.exn m, [.get_user_profile true])
  | .ok me0 =>
    let retried := is_me_error me0
    let log0 : List ProfileCall :=
      if retried then [.get_user_profile true, .get_user_profile false]
      else [.get_user_profile true]
    let meR : CallResult JVal := if retried then api.get_user_profile false else .ok me0
    match meR with
    | .exn m => (.exn m, log0)
    | .ok me =>
      let fromMe : Option JVal :=
        if !is_me_error me then
          match extract_own_urn_id me with
          | some v => if truthy v then some v else none
          | none => none
        else none
      match fromMe with
      | some v => (.ok (some v), log0)
      | none =>
        match env_public_id with
        | some pid =>
          if pid != "" then
            (.ok (urnViaProfileLookup api pid), log0 ++ [.get_profile pid])
          else (.ok none, log0)
        | none => (.ok none, log0)

/-! ## Helper predicates over call logs and conversation payloads -/

/-- Whether an upstream call is a people search. -/
def isSearchCall : ApiCall → Bool
  | .search_people _ => true
  | .get_conversations => false

/-- Whether an extractor call is a profile-by-handle lookup. -/
def isProfileLookupCall : ProfileCall → Bool
  | .get_profile _ => true
  | .get_user_profile _ => false

/-- The miniProfile record of a conversation participant, following the same
two dict.get steps the scan performs. -/
def pMini (p : JVal) : JVal :=
  (p.getD "com.linkedin.voyager.messaging.MessagingMember" (.obj [])).getD "miniProfile" (.obj [])

/-- The entityUrn value of a participant. -/
def urnOf (p : JVal) : JVal :=
  (pMini p).getD "entityUrn" (.str "")

/-- The entityUrn of a participant as a string (empty for the non-string case
excluded by well-formedness). -/
def urnStrOf (p : JVal) : String :=
  match urnOf p with
  | .str s => s
  | _ => ""

/-- The normalized full name the scan computes for a participant: trimmed,
lowercased concatenation of firstName and lastName. -/
def fullNameOf (p : JVal) : String :=
  pyLower (pyTrim (pyRender ((pMini p).getD "firstName" (.str "")) ++ " " ++
    pyRender ((pMini p).getD "lastName" (.str ""))))

/-- A participant record is well-formed when its member / miniProfile chain is
dict-shaped and its entityUrn is a string, so the scan cannot raise on it. -/
def wfParticipant (p : JVal) : Bool :=
  match p with
  | .obj _ =>
    match p.getD "com.linkedin.voyager.messaging.MessagingMember" (.obj []) with
    | .obj _ =>
      match (p.getD "com.linkedin.voyager.messaging.MessagingMember" (.obj [])).getD "miniProfile" (.obj []) with
      | .obj _ =>
        match urnOf p with
        | .str _ => true
        | _ => false
      | _ => false
    | _ => false
  | _ => false

/-- Whether the scan accepts participant p for the lowercased reference: the
names compare equal and the entityUrn is non-empty and colon-bearing. -/
def pMatches (name_lower : String) (p : JVal) : Bool :=
  name_lower == fullNameOf p && urnStrOf p != "" && pyContains (urnStrOf p) ':'

/-- Participant list of a conversation record. -/
def partsOf (c : JVal) : List JVal :=
  match c.getD "participants" (.arr []) with
  | .arr l => l
  | _ => []

/-- A conversation record is well-formed when it is a dict whose participants
field is a list of well-formed participants. -/
def wfConv (c : JVal) : Bool :=
  match c with
  | .obj _ =>
    (match c.getD "participants" (.arr []) with
     | .arr _ => true
     | _ => false) && (partsOf c).all wfParticipant
  | _ => false

/-! ## Concrete fixtures used by witnesses and counterexamples -/

/-- Upstream client whose every search returns an empty candidate list and
whose inbox is empty. -/
def apiAllEmpty : Api :=
  ⟨fun _ => .ok [], .ok (.arr [])⟩

/-- Upstream client on which strategy 1 for the reference John Smith yields a
top candidate with a populated urn_id. -/
def apiC2 : Api :=
  ⟨fun a =>
    if a == strategy1Args "John Smith" then
      .ok [.obj [("urn_id", .str "ACoAAB1"), ("name", .str "John Smith")]]
    else .ok [],
   .ok (.arr [])⟩

/-- A status-only probe response (the ErrorShape classification). -/
def statusOnly : JVal := .obj [("status", .num 401)]

/-- Password-only configuration whose probes always come back status-only. -/
def envPwAllInvalid : SessionEnv :=
  ⟨"", "", "user@example.com", "hunter2", true, fun _ => .ok statusOnly⟩

/-- Full configuration (cookies and password, cached cookie file present)
whose probes always come back status-only. -/
def envBothAllInvalid : SessionEnv :=
  ⟨"liatvalue", "jsidvalue", "user@example.com", "hunter2", true, fun _ => .ok statusOnly⟩

/-- Configuration with only the li_at half of the cookie pair and no password
pair: neither credential form is complete. -/
def envLiAtOnly : SessionEnv :=
  ⟨"liatvalue", "", "", "", false, fun _ => .exn "probe never issued"⟩

/-- Configuration with a complete cookie pair, no password pair, and an
invalid cookie session. -/
def envCookiesOnlyInvalid : SessionEnv :=
  ⟨"liatvalue", "jsidvalue", "", "", false, fun _ => .ok statusOnly⟩

/-- Probe response with the canonical id nested in the miniProfile container. -/
def meNested : JVal := .obj [("miniProfile", .obj [("entityUrn", .str "urn:li:x:123")])]

/-- Probe response whose only identifier is the raw numeric plainId 42. -/
def mePlain : JVal := .obj [("plainId", .num 42)]

/-- Probe response with no identifier fields at all. -/
def meBare : JVal := .obj []

/-- Probe response whose only identifier field is plainId with value 0. -/
def mePlainZero : JVal := .obj [("plainId", .num 0)]

/-- Extractor client whose probe yields a profile-shaped response without
identifiers and whose profile lookup for the override handle succeeds. -/
def profileApiOverride : ProfileApi :=
  ⟨fun _ => .ok meBare,
   fun pid => if pid == "my-handle" then .ok (.obj [("profile_id", .str "OWN99")]) else .exn "wrong handle"⟩

/-- Extractor client whose probe yields only plainId 0 and whose profile
lookup for the override handle succeeds. -/
def profileApiZero : ProfileApi :=
  ⟨fun _ => .ok mePlainZero,
   fun pid => if pid == "override-handle" then .ok (.obj [("profile_id", .str "PID7")]) else .exn "wrong handle"⟩

/-- Messaging client for which every search is empty and listing conversations
raises a transport error. -/
def sendApiConvFail : SendApi :=
  ⟨.ok (), fun _ => .ok [], .exn "ConnectionError", .ok false⟩

/-- Resolver client whose searches raise a transport error. -/
def apiSearchFail : Api :=
  ⟨fun _ => .exn "ConnectionError", .ok (.arr [])⟩

/-- Messaging client whose session acquisition raises the configuration
RuntimeError of get_client. -/
def sendApiNoCreds : SendApi :=
  ⟨.exn "no credentials configured", fun _ => .ok [], .ok (.arr []), .ok false⟩

/-- Messaging client whose people searches raise a transport error. -/
def sendApiSearchFail : SendApi :=
  ⟨.ok (), fun _ => .exn "ConnectionError", .ok (.arr []), .ok false⟩

/-- A conversation participant record for John Smith with a populated
entityUrn, in the exact payload shape the scan walks. -/
def participantJohn : JVal :=
  .obj [("com.linkedin.voyager.messaging.MessagingMember", .obj [
    ("miniProfile", .obj [
      ("firstName", .str "John"),
      ("lastName", .str "Smith"),
      ("entityUrn", .str "urn:li:fs_miniProfile:ACoAAB9")])])]

/-- A single conversation whose single participant is John Smith. -/
def convJohnSmith : List JVal :=
  [.obj [("participants", .arr [participantJohn])]]

/-- Messaging client with empty searches whose inbox holds convJohnSmith. -/
def apiConvJohn : Api :=
  ⟨fun _ => .ok [], .ok (.arr convJohnSmith)⟩

/-! ## Claim theorems -/

/-- C1 counterexample: the empty string contains no whitespace and no comma,
yet resolve() does not return it unchanged with zero network calls — it runs
the cascade (three upstream calls here) and yields no id, because the
classification also requires the reference to be truthy (non-empty). -/
theorem C1_counterexample :
    pyContains "" ' ' = false ∧ pyContains "" ',' = false ∧
    resolve_recipient apiAllEmpty "" =
      (.ok none,
        [.search_people (strategy1Args ""), .search_people (strategy3Args ""),
          .get_conversations]) ∧
    (resolve_recipient apiAllEmpty "").2 ≠ [] := by
  refine ⟨rfl, rfl, rfl, ?_⟩
  have h : (resolve_recipient apiAllEmpty "").2 =
      [.search_people (strategy1Args ""), .search_people (strategy3Args ""),
        .get_conversations] := rfl
  rw [h]
  simp

/-- C1 amended: for every NON-EMPTY reference containing no space and no
comma (hence in particular every non-empty reference with no whitespace and
no comma), resolve() returns it unchanged and issues zero upstream calls. -/
theorem C1_amended (api : Api) (r : String) (h0 : r ≠ "")
    (h1 : pyContains r ' ' = false) (h2 : pyContains r ',' = false) :
    resolve_recipient api r = (.ok (some (.str r)), []) := by
  have hurn : looks_like_urn_id r = true := by
    simp [looks_like_urn_id, h1, h2, bne_iff_ne, h0]
  simp [resolve_recipient, hurn]

/-- Witness for C1 amended at a concrete canonical-looking reference. -/
theorem C1_amended_witness :
    resolve_recipient apiAllEmpty "ACoAAB123" = (.ok (some (.str "ACoAAB123")), []) :=
  C1_amended apiAllEmpty "ACoAAB123" (by decide) (by decide) (by decide)

/-- C2: for a reference that enters the cascade, if strategy 1 returns a
result list whose top candidate carries a populated urn_id, resolve() returns
that id and the call log holds exactly the one strategy-1 search: strategies
2, 3 and 4 are never invoked. -/
theorem C2_strategy1_short_circuit (api : Api) (r : String) (results : List JVal) (v : JVal)
    (hcascade : looks_like_urn_id r = false)
    (hs1 : api.search_people (strategy1Args r) = .ok results)
    (htop : topUrnId results = some v) :
    resolve_recipient api r = (.ok (some v), [.search_people (strategy1Args r)]) := by
  simp [resolve_recipient, hcascade, hs1, htop]

/-- Witness for C2 on a concrete client where strategy 1 finds John Smith. -/
theorem C2_strategy1_short_circuit_witness :
    resolve_recipient apiC2 "John Smith" =
      (.ok (some (.str "ACoAAB1")), [.search_people (strategy1Args "John Smith")]) :=
  C2_strategy1_short_circuit apiC2 "John Smith"
    [.obj [("urn_id", .str "ACoAAB1"), ("name", .str "John Smith")]]
    (.str "ACoAAB1") (by decide) rfl rfl

/-- C3: in the password flow, when the health probe classifies as an error
shape, the cookie file exists, and the single retry probe also classifies as
an error shape, get_client deletes the cached-credential artifact exactly
once, returns the rebuilt (degraded: last probe invalid) session, and does
not raise. -/
theorem C3_double_invalid_degraded (env : SessionEnv)
    (hli : pyTrim env.li_at = "")
    (hmail : pyTrim env.email ≠ "") (hpw : pyTrim env.password ≠ "")
    (hfile : env.cookie_file_exists = true)
    (hp0 : is_session_valid (env.probe 0) = false)
    (hp1 : is_session_valid (env.probe 1) = false) :
    get_client env = ⟨.session (.password_session 2), 2, 2, 1, some false⟩ := by
  simp [get_client, hli, hmail, hpw, hfile, hp0, hp1, bne_iff_ne]

/-- Witness for C3 on a password-only configuration with stale cookies and
persistently invalid probes. -/
theorem C3_double_invalid_degraded_witness :
    get_client envPwAllInvalid = ⟨.session (.password_session 2), 2, 2, 1, some false⟩ :=
  C3_double_invalid_degraded envPwAllInvalid (by decide) (by decide) (by decide)
    rfl (by decide) (by decide)

/-- C4: own-canonical-id extraction follows the fixed priority order — the
nested container entityUrn yields its final colon segment, a lone plainId 42
yields the string 42, and a response with no identifiers plus a configured
override handle leads to exactly one profile lookup whose id is returned. -/
theorem C4_own_id_priority :
    extract_own_urn_id meNested = some (.str "123") ∧
    extract_own_urn_id mePlain = some (.str "42") ∧
    get_own_urn_id profileApiOverride (some "my-handle") =
      (.ok (some (.str "OWN99")), [.get_user_profile true, .get_profile "my-handle"]) ∧
    ((get_own_urn_id profileApiOverride (some "my-handle")).2.countP
        (fun c => isProfileLookupCall c)) = 1 :=
  ⟨rfl, rfl, rfl, rfl⟩

/-- C6 counterexample: with cookie credentials configured but invalid, a
configured password fallback, and a cached cookie file, get_client issues
three health probes (cookie probe, password probe, post-deletion retry) —
more than the claimed two. -/
theorem C6_counterexample :
    get_client envBothAllInvalid = ⟨.session (.password_session 2), 3, 2, 1, some false⟩ ∧
    ¬ (get_client envBothAllInvalid).probes ≤ 2 := by
  refine ⟨rfl, ?_⟩
  have h : (get_client envBothAllInvalid).probes = 3 := rfl
  omega

/-- C6 amended: a single get_client call issues at most three health probes
in total, and at most two when no cookie credential precedes the password
flow (li_at unset). -/
theorem C6_amended (env : SessionEnv) :
    (get_client env).probes ≤ 3 ∧
      (pyTrim env.li_at = "" → (get_client env).probes ≤ 2) := by
  constructor
  · simp only [get_client]
    repeat' split
    all_goals simp_arith
  · intro h
    simp only [get_client, h]
    repeat' split
    all_goals simp_all

/-- Witness for the conditional part of C6 amended on a password-only
configuration. -/
theorem C6_amended_witness :
    (get_client envPwAllInvalid).probes ≤ 2 :=
  (C6_amended envPwAllInvalid).2 (by decide)

/-- C8 counterexample: the cookies-expired RuntimeError is raised immediately
with zero network activity when only the li_at half of the cookie pair is set
(so it is the immediate configuration failure of the claim), yet the very
same error is also raised in a configuration with a complete cookie pair —
so an acquire with a complete credential form configured can still raise it. -/
theorem C8_counterexample :
    get_client envLiAtOnly = ⟨.raised .cookies_expired_no_fallback, 0, 0, 0, none⟩ ∧
    get_client envCookiesOnlyInvalid = ⟨.raised .cookies_expired_no_fallback, 1, 0, 0, none⟩ ∧
    pyTrim envCookiesOnlyInvalid.li_at ≠ "" ∧ pyTrim envCookiesOnlyInvalid.jsessionid ≠ "" :=
  ⟨rfl, rfl, by decide, by decide⟩

/-- C8 amended: with neither credential pair complete, get_client raises
immediately — zero probes, zero logins, zero deletions; and whenever a
complete password pair is configured it never raises (a complete cookie pair
alone does not guarantee this: see the counterexample). -/
theorem C8_amended (env : SessionEnv) :
    (¬(pyTrim env.li_at ≠ "" ∧ pyTrim env.jsessionid ≠ "") →
      ¬(pyTrim env.email ≠ "" ∧ pyTrim env.password ≠ "") →
      (∃ e, (get_client env).result = .raised e) ∧ (get_client env).probes = 0 ∧
        (get_client env).logins = 0 ∧ (get_client env).deletions = 0) ∧
    ((pyTrim env.email ≠ "" ∧ pyTrim env.password ≠ "") →
      ∃ s, (get_client env).result = .session s) := by
  constructor
  · intro hck hpw
    simp only [get_client]
    repeat' split
    all_goals simp_all
  · intro hpw
    simp only [get_client]
    repeat' split
    all_goals simp_all

/-- Witness for C8 amended: the incomplete configuration raises with no
network activity, and a password-pair configuration returns a session. -/
theorem C8_amended_witness :
    ((∃ e, (get_client envLiAtOnly).result = .raised e) ∧
      (get_client envLiAtOnly).probes = 0 ∧ (get_client envLiAtOnly).logins = 0 ∧
      (get_client envLiAtOnly).deletions = 0) ∧
    (∃ s, (get_client envPwAllInvalid).result = .session s) :=
  ⟨(C8_amended envLiAtOnly).1 (by decide) (by decide),
   (C8_amended envPwAllInvalid).2 (by decide)⟩

/-- C10: falsy identifier values are treated as absent — a profile-shaped
probe response whose only identifier is plainId 0 yields no id and the
extractor proceeds to the override profile-lookup fallback, and an
empty-string publicIdentifier is skipped by the handle extraction chain. -/
theorem C10_falsy_identifiers :
    is_me_error mePlainZero = false ∧
    extract_own_urn_id mePlainZero = none ∧
    get_own_urn_id profileApiZero (some "override-handle") =
      (.ok (some (.str "PID7")), [.get_user_profile true, .get_profile "override-handle"]) ∧
    extract_own_public_id (.obj [("miniProfile", .obj [("publicIdentifier", .str "")]),
      ("publicIdentifier", .str ""), ("vanityName", .str "the-handle")]) =
      some (.str "the-handle") :=
  ⟨rfl, rfl, rfl, rfl⟩

/-- C9 counterexample: a transport exception raised inside strategy 1
propagates uncaught out of the resolve() interface, and it is not the
configuration error — contrary to the claim that only ConfigurationError
escapes these interfaces. (It is caught one level up, at the tool handler.) -/
theorem C9_counterexample :
    resolve_recipient apiSearchFail "John Smith" =
      (.exn "ConnectionError", [.search_people (strategy1Args "John Smith")]) := rfl

/-- C9 amended: exceptions do escape the Session Manager / Resolver /
Extractor interfaces, but the tool-handler boundary catches every one of
them: handle_send_message always returns a structured response (success, or
failure with a non-empty error code), and a raise during session acquisition
(including the lazy configuration error, which therefore does not halt
startup) surfaces as an error_response with code LINKEDIN_ERROR. -/
theorem C9_amended :
    (∀ (api : SendApi) (body : String) (conv : Option String) (recips : Option (List String)),
      (handle_send_message api body conv recips).success = true ∨
        ((handle_send_message api body conv recips).success = false ∧
          (handle_send_message api body conv recips).errorCode ≠ "")) ∧
    (∀ (api : SendApi) (body : String) (conv : Option String) (recips : Option (List String))
      (m : String),
      api.acquire = .exn m → (pyTrim body == "") = false →
      (!optTruthyStr conv && !optTruthyList recips) = false →
      handle_send_message api body conv recips = error_response m "LINKEDIN_ERROR") := by
  constructor
  · intro api body conv recips
    unfold handle_send_message finishSend
    repeat' split
    all_goals simp_all [error_response, success_response]
  · intro api body conv recips m hacq hbody htarget
    simp [handle_send_message, hbody, htarget, hacq]

/-- Witness for C9 amended: a configuration raise during acquisition becomes
a structured LINKEDIN_ERROR response at the tool boundary. -/
theorem C9_amended_witness :
    handle_send_message sendApiNoCreds "Hello" none (some ["John Smith"]) =
      error_response "no credentials configured" "LINKEDIN_ERROR" :=
  (C9_amended).2 sendApiNoCreds "Hello" none (some ["John Smith"])
    "no credentials configured" rfl (by decide) (by decide)

/-- C5 counterexample: with strategies 1 to 3 empty and a transport failure
while listing conversations (strategy 4), the failure is swallowed and the
tool reports RECIPIENT_NOT_FOUND — a transport failure yielding the NotFound
category, contrary to the claim. -/
theorem C5_counterexample :
    sendApiConvFail.get_conversations = .exn "ConnectionError" ∧
    handle_send_message sendApiConvFail "Hello" none (some ["John Smith"]) =
      error_response "Could not find LinkedIn user matching John Smith" "RECIPIENT_NOT_FOUND" :=
  ⟨rfl, rfl⟩

/-- C5 amended: a no-match resolution implies the cascade truly ran to the
end (strategies 1 and 3 searched and the conversation scan was invoked), and
a transport failure during the search strategies 1 to 3 propagates and is
reported as the upstream-error category (LINKEDIN_ERROR), never as
RECIPIENT_NOT_FOUND; a transport failure during strategy 4, however, is
swallowed into a no-match (see the counterexample). -/
theorem C5_amended :
    (∀ (api : Api) (r : String), (resolve_recipient api r).1 = .ok none →
      ApiCall.search_people (strategy1Args r) ∈ (resolve_recipient api r).2 ∧
      ApiCall.search_people (strategy3Args r) ∈ (resolve_recipient api r).2 ∧
      ApiCall.get_conversations ∈ (resolve_recipient api r).2) ∧
    (∀ (api : SendApi) (r body m : String),
      (pyTrim body == "") = false → api.acquire = .ok () →
      (resolve_recipient api.toApi r).1 = .exn m →
      handle_send_message api body none (some [r]) = error_response m "LINKEDIN_ERROR") := by
  constructor
  · intro api r hnone
    by_cases hurn : looks_like_urn_id r = true
    · simp [resolve_recipient, hurn] at hnone
    · have hurnF : looks_like_urn_id r = false := by simpa using hurn
      rcases h1 : api.search_people (strategy1Args r) with r1 | m1
      · rcases ht1 : topUrnId r1 with _ | v
        · rcases hps : pySplitWs (pyTrim r) with _ | ⟨p0, rest0⟩
          · rcases h3 : api.search_people (strategy3Args r) with r3 | m3
            · rcases ht3 : topUrnId r3 with _ | v3
              · rcases hc : resolve_via_conversations api r with _ | u
                · simp [resolve_recipient, hurnF, h1, ht1, hps, h3, ht3, hc]
                · simp [resolve_recipient, hurnF, h1, ht1, hps, h3, ht3, hc] at hnone
              · simp [resolve_recipient, hurnF, h1, ht1, hps, h3, ht3] at hnone
            · simp [resolve_recipient, hurnF, h1, ht1, hps, h3] at hnone
          · rcases rest0 with _ | ⟨p1, prest⟩
            · rcases h3 : api.search_people (strategy3Args r) with r3 | m3
              · rcases ht3 : topUrnId r3 with _ | v3
                · rcases hc : resolve_via_conversations api r with _ | u
                  · simp [resolve_recipient, hurnF, h1, ht1, hps, h3, ht3, hc]
                  · simp [resolve_recipient, hurnF, h1, ht1, hps, h3, ht3, hc] at hnone
                · simp [resolve_recipient, hurnF, h1, ht1, hps, h3, ht3] at hnone
              · simp [resolve_recipient, hurnF, h1, ht1, hps, h3] at hnone
            · rcases h2 : api.search_people (strategy2Args p0 (joinWith " " (p1 :: prest))) with r2 | m2
              · rcases ht2 : topUrnId r2 with _ | v2
                · rcases h3 : api.search_people (strategy3Args r) with r3 | m3
                  · rcases ht3 : topUrnId r3 with _ | v3
                    · rcases hc : resolve_via_conversations api r with _ | u
                      · simp [resolve_recipient, hurnF, h1, ht1, hps, h2, ht2, h3, ht3, hc]
                      · simp [resolve_recipient, hurnF, h1, ht1, hps, h2, ht2, h3, ht3, hc] at hnone
                    · simp [resolve_recipient, hurnF, h1, ht1, hps, h2, ht2, h3, ht3] at hnone
                  · simp [resolve_recipient, hurnF, h1, ht1, hps, h2, ht2, h3] at hnone
                · simp [resolve_recipient, hurnF, h1, ht1, hps, h2, ht2] at hnone
              · simp [resolve_recipient, hurnF, h1, ht1, hps, h2] at hnone
        · simp [resolve_recipient, hurnF, h1, ht1] at hnone
      · simp [resolve_recipient, hurnF, h1] at hnone
  · intro api r body m hbody hacq hexn
    simp [handle_send_message, optTruthyStr, optTruthyList, resolveAll, hbody, hacq, hexn]

/-- Witness for C5 amended: an exhausted cascade has all strategies in its
call log, and a strategy-1 transport failure surfaces as LINKEDIN_ERROR. -/
theorem C5_amended_witness :
    (ApiCall.search_people (strategy1Args "") ∈ (resolve_recipient apiAllEmpty "").2 ∧
      ApiCall.search_people (strategy3Args "") ∈ (resolve_recipient apiAllEmpty "").2 ∧
      ApiCall.get_conversations ∈ (resolve_recipient apiAllEmpty "").2) ∧
    handle_send_message sendApiSearchFail "Hello" none (some ["John Smith"]) =
      error_response "ConnectionError" "LINKEDIN_ERROR" :=
  ⟨(C5_amended).1 apiAllEmpty "" rfl,
   (C5_amended).2 sendApiSearchFail "John Smith" "Hello" "ConnectionError" (by decide) rfl rfl⟩

/-- On a well-formed participant list the scan cannot raise and returns
exactly the first accepted participant's colon-decomposed entityUrn. -/
theorem scanParticipants_eq_find (nl : String) (ps : List JVal)
    (h : ∀ p ∈ ps, wfParticipant p = true) :
    scanParticipants nl ps =
      .ok ((ps.find? (pMatches nl)).map (fun p => splitColonLast (urnStrOf p))) := by
  induction ps with
  | nil => rfl
  | cons p rest ih =>
    have hp : wfParticipant p = true := h p (List.mem_cons_self p rest)
    have ihr := ih (fun q hq => h q (List.mem_cons_of_mem p hq))
    cases p with
    | null => simp [wfParticipant] at hp
    | bool b => simp [wfParticipant] at hp
    | num n => simp [wfParticipant] at hp
    | str s => simp [wfParticipant] at hp
    | arr l => simp [wfParticipant] at hp
    | obj fs =>
      cases hm : (JVal.obj fs).getD "com.linkedin.voyager.messaging.MessagingMember" (.obj []) with
      | obj mfs =>
        cases hmini : (JVal.obj mfs).getD "miniProfile" (.obj []) with
        | obj imfs =>
          cases hurn : (JVal.obj imfs).getD "entityUrn" (.str "") with
          | str us =>
            have hfull : fullNameOf (JVal.obj fs) =
                pyLower (pyTrim (pyRender ((JVal.obj imfs).getD "firstName" (.str "")) ++ " " ++
                  pyRender ((JVal.obj imfs).getD "lastName" (.str "")))) := by
              simp [fullNameOf, pMini, hm, hmini]
            have hustr : urnStrOf (JVal.obj fs) = us := by
              simp [urnStrOf, urnOf, pMini, hm, hmini, hurn]
            simp only [scanParticipants]
            rw [hm, hmini, hurn]
            cases hname : (nl == pyLower (pyTrim (pyRender ((JVal.obj imfs).getD "firstName" (.str "")) ++ " " ++
                pyRender ((JVal.obj imfs).getD "lastName" (.str ""))))) with
            | false =>
              have hpm : pMatches nl (JVal.obj fs) = false := by
                simp [pMatches, hfull, hname]
              rw [List.find?_cons_of_neg _ (by simp [hpm])]
              simp only [Bool.false_eq_true, if_false]
              exact ihr
            | true =>
              cases hus : (us != "") with
              | false =>
                have hpm : pMatches nl (JVal.obj fs) = false := by
                  simp [pMatches, hustr, hus]
                rw [List.find?_cons_of_neg _ (by simp [hpm])]
                simp only [hname, if_true, truthy, hus, Bool.false_eq_true, if_false]
                exact ihr
              | true =>
                cases hcol : pyContains us ':' with
                | false =>
                  have hpm : pMatches nl (JVal.obj fs) = false := by
                    simp [pMatches, hustr, hcol]
                  rw [List.find?_cons_of_neg _ (by simp [hpm])]
                  simp only [hname, if_true, truthy, hus, hcol, Bool.false_eq_true, if_false]
                  exact ihr
                | true =>
                  have hpm : pMatches nl (JVal.obj fs) = true := by
                    simp [pMatches, hfull, hustr, hname, hus, hcol]
                  rw [List.find?_cons_of_pos _ (by simp [hpm])]
                  simp [hname, truthy, hus, hcol, hustr]
          | null =>
            simp [wfParticipant, hm, hmini, urnOf, pMini, hurn] at hp
          | bool b =>
            simp [wfParticipant, hm, hmini, urnOf, pMini, hurn] at hp
          | num n =>
            simp [wfParticipant, hm, hmini, urnOf, pMini, hurn] at hp
          | arr l =>
            simp [wfParticipant, hm, hmini, urnOf, pMini, hurn] at hp
          | obj ofs =>
            simp [wfParticipant, hm, hmini, urnOf, pMini, hurn] at hp
        | null => simp [wfParticipant, hm, hmini] at hp
        | bool b => simp [wfParticipant, hm, hmini] at hp
        | num n => simp [wfParticipant, hm, hmini] at hp
        | str s => simp [wfParticipant, hm, hmini] at hp
        | arr l => simp [wfParticipant, hm, hmini] at hp
      | null => simp [wfParticipant, hm] at hp
      | bool b => simp [wfParticipant, hm] at hp
      | num n => simp [wfParticipant, hm] at hp
      | str s => simp [wfParticipant, hm] at hp
      | arr l => simp [wfParticipant, hm] at hp

/-- On a well-formed conversation list the scan cannot raise and returns the
first accepted participant across conversations in order. -/
theorem scanConvs_eq_findSome (nl : String) (cs : List JVal)
    (h : ∀ c ∈ cs, wfConv c = true) :
    scanConvs nl cs =
      .ok (cs.findSome? (fun c =>
        ((partsOf c).find? (pMatches nl)).map (fun p => splitColonLast (urnStrOf p)))) := by
  induction cs with
  | nil => rfl
  | cons c rest ih =>
    have hc : wfConv c = true := h c (List.mem_cons_self c rest)
    have ihr := ih (fun q hq => h q (List.mem_cons_of_mem c hq))
    cases c with
    | null => simp [wfConv] at hc
    | bool b => simp [wfConv] at hc
    | num n => simp [wfConv] at hc
    | str s => simp [wfConv] at hc
    | arr l => simp [wfConv] at hc
    | obj cfs =>
      cases hpf : (JVal.obj cfs).getD "participants" (.arr []) with
      | arr l =>
        have hparts : partsOf (JVal.obj cfs) = l := by simp [partsOf, hpf]
        have hall : ∀ p ∈ l, wfParticipant p = true := by
          simp [wfConv, hpf, hparts, List.all_eq_true] at hc
          exact hc
        simp only [scanConvs]
        rw [hpf]
        simp only [asIterList]
        rw [scanParticipants_eq_find nl l hall]
        cases hfind : l.find? (pMatches nl) with
        | none =>
          simp only [Option.map_none', List.findSome?_cons, hparts, hfind]
          exact ihr
        | some p =>
          simp [List.findSome?_cons, hparts, hfind]
      | null => simp [wfConv, hpf] at hc
      | bool b => simp [wfConv, hpf] at hc
      | num n => simp [wfConv, hpf] at hc
      | str s => simp [wfConv, hpf] at hc
      | obj ofs => simp [wfConv, hpf] at hc

/-- Embedding-level restatement of the conversation fallback on well-formed
payloads: one get_conversations call, then the first accepted participant. -/
theorem resolve_via_conversations_eq (api : Api) (name : String) (cs : List JVal)
    (hconv : api.get_conversations = .ok (.arr cs))
    (h : ∀ c ∈ cs, wfConv c = true) :
    resolve_via_conversations api name =
      cs.findSome? (fun c =>
        ((partsOf c).find? (pMatches (pyLower name))).map (fun p => splitColonLast (urnStrOf p))) := by
  simp [resolve_via_conversations, hconv, scanConvs_eq_findSome (pyLower name) cs h]

/-- C7 counterexample: the reference " John Smith " (with surrounding
whitespace) has the same trimmed, lowercased form as the cached participant's
full name — the claim's hypothesis holds — yet resolve() returns no match,
because the code lowercases the reference without trimming it before the
comparison. -/
theorem C7_counterexample :
    (pyLower (pyTrim " John Smith ") == fullNameOf participantJohn) = true ∧
    pMatches (pyLower (pyTrim " John Smith ")) participantJohn = true ∧
    resolve_recipient apiConvJohn " John Smith " =
      (.ok none,
        [.search_people (strategy1Args " John Smith "),
         .search_people (strategy2Args "John" "Smith"),
         .search_people (strategy3Args " John Smith "),
         .get_conversations]) ∧
    (resolve_recipient apiConvJohn " John Smith ").1 ≠ .ok (some (.str "ACoAAB9")) := by
  refine ⟨by decide, by decide, rfl, ?_⟩
  have h : (resolve_recipient apiConvJohn " John Smith ").1 = .ok none := rfl
  rw [h]
  simp

/-- C7 amended: the reference is lowercased but not trimmed before the
comparison, so the matching condition must read: some cached participant's
trimmed, lowercased full name equals the lowercased (untrimmed) reference —
equivalently, the claim as stated holds for references with no surrounding
whitespace. Under empty strategies 1 to 3 and well-formed payloads, resolve()
then returns that participant's id straight from the conversation payload,
issuing no additional search call (at most the three strategy searches). -/
theorem C7_amended (api : Api) (r : String) (cs : List JVal)
    (hcascade : looks_like_urn_id r = false)
    (hsearch : ∀ a, api.search_people a = .ok [])
    (hconv : api.get_conversations = .ok (.arr cs))
    (hwf : ∀ c ∈ cs, wfConv c = true)
    (hmatch : ∃ c ∈ cs, ∃ p ∈ partsOf c, pMatches (pyLower r) p = true) :
    ∃ c ∈ cs, ∃ p ∈ partsOf c, pMatches (pyLower r) p = true ∧
      (resolve_recipient api r).1 = .ok (some (.str (splitColonLast (urnStrOf p)))) ∧
      (resolve_recipient api r).2.countP (fun a => isSearchCall a) ≤ 3 ∧
      ApiCall.get_conversations ∈ (resolve_recipient api r).2 := by
  have hrvc := resolve_via_conversations_eq api r cs hconv hwf
  rcases hfs : cs.findSome? (fun c => ((partsOf c).find? (pMatches (pyLower r))).map
      (fun p => splitColonLast (urnStrOf p))) with _ | u
  · exfalso
    rcases hmatch with ⟨c, hcm, p, hpm, hmt⟩
    have hnone := List.findSome?_eq_none_iff.mp hfs c hcm
    rw [Option.map_eq_none'] at hnone
    exact (List.find?_eq_none.mp hnone p hpm) hmt
  · obtain ⟨c, hcm, hfc⟩ := List.exists_of_findSome?_eq_some hfs
    rw [Option.map_eq_some'] at hfc
    obtain ⟨p, hfind, hup⟩ := hfc
    refine ⟨c, hcm, p, List.mem_of_find?_eq_some hfind, List.find?_some hfind, ?_, ?_, ?_⟩
    · rcases hps : pySplitWs (pyTrim r) with _ | ⟨p0, _ | ⟨p1, prest⟩⟩
      all_goals
        simp [resolve_recipient, hcascade, hsearch, topUrnId, hps, hrvc, hfs, hup]
    · rcases hps : pySplitWs (pyTrim r) with _ | ⟨p0, _ | ⟨p1, prest⟩⟩
      all_goals
        simp_arith [resolve_recipient, hcascade, hsearch, topUrnId, hps, hrvc, hfs,
          isSearchCall, List.countP_cons, List.countP_nil]
    · rcases hps : pySplitWs (pyTrim r) with _ | ⟨p0, _ | ⟨p1, prest⟩⟩
      all_goals
        simp [resolve_recipient, hcascade, hsearch, topUrnId, hps, hrvc, hfs]

/-- Witness for C7 amended on the single cached John Smith conversation and
the whitespace-free reference. -/
theorem C7_amended_witness :
    ∃ c ∈ convJohnSmith, ∃ p ∈ partsOf c, pMatches (pyLower "John Smith") p = true ∧
      (resolve_recipient apiConvJohn "John Smith").1 =
        .ok (some (.str (splitColonLast (urnStrOf p)))) ∧
      (resolve_recipient apiConvJohn "John Smith").2.countP (fun a => isSearchCall a) ≤ 3 ∧
      ApiCall.get_conversations ∈ (resolve_recipient apiConvJohn "John Smith").2 :=
  C7_amended apiConvJohn "John Smith" convJohnSmith (by decide) (fun a => rfl) rfl
    (by decide) (by decide)

end LinkedInCore
